import Mathlib

/-!
Shallow embedding of the Nurse Station Dashboard alert/alarm core
(src/src/App.jsx and src/unnamed/part_000) together with theorems that
settle the specification claims against it.

The repository holds two revisions of the same single-file React app.
Where the revisions agree, the embedding follows the shared code; where
they differ the relevant revision is cited next to each definition.
-/

/-! ## JavaScript value and string primitives

The backend delivers loosely typed JSON values; the dashboard reads them
with optional chaining and plain truthiness tests.  `JsVal` models the
value shapes that reach the alert logic, with `undefined` standing for a
missing field reached through `?.`. -/

/-- A loosely typed JavaScript value as read from the realtime backend. -/
inductive JsVal where
  | undefined : JsVal
  | null : JsVal
  | bool : Bool → JsVal
  | num : Int → JsVal
  | str : String → JsVal
deriving DecidableEq, Repr

/-- JavaScript truthiness, as applied by `if (x)` / `x ? a : b` in the
source: `undefined`, `null`, `false`, `0` and `""` are falsy, everything
else is truthy. -/
def truthy : JsVal → Bool
  | .undefined => false
  | .null => false
  | .bool b => b
  | .num n => n != 0
  | .str s => s != ""

/-- JavaScript `String.prototype.trim()` on a Lean string (whitespace
stripped from both ends), used by `handleSaveConfig`. -/
def jsTrim (s : String) : String :=
  ⟨((s.data.dropWhile Char.isWhitespace).reverse.dropWhile Char.isWhitespace).reverse⟩

/-- JavaScript `String.prototype.toLowerCase()` on a Lean string. -/
def jsToLower (s : String) : String := ⟨s.data.map Char.toLower⟩

/-- JavaScript `String.prototype.startsWith(pre)` on Lean strings. -/
def jsStartsWith (s pre : String) : Bool := pre.data.isPrefixOf s.data

/-! ## Telemetry data model

Mirrors the record shapes the dashboard reads:
`wardData` (from `hospital_system/wards/ward_A`) maps room keys to room
records carrying `live_status.fall_detected` and `motion.val`;
`sensorData` (from `/sensor_data`) carries a global `status` string. -/

/-- A room's legacy flat live status; `fall_detected` is kept as a raw
`JsVal` because the backend may store booleans in any shape
(`.undefined` models an absent field). -/
structure LiveStatus where
  fall_detected : JsVal
deriving DecidableEq, Repr

/-- The `motion` sub-record an ESP32-S3-CAM pushes (`motion.val = 1` on a
fall); `val := none` models a missing `val` key. -/
structure MotionData where
  val : Option Int
deriving DecidableEq, Repr

/-- One room record of `wardData`; `none` sub-records model fields absent
from the backend snapshot (read with `?.` in the source). -/
structure Room where
  live_status : Option LiveStatus
  motion : Option MotionData
deriving DecidableEq, Repr

/-- The global `/sensor_data` record; `status := none` models a snapshot
without a `status` key. -/
structure SensorData where
  status : Option String
deriving DecidableEq, Repr

/-- A ward snapshot: room key / room record pairs in iteration order
(the embedding of the `wardData` object). -/
abbrev Ward := List (String × Room)

/-- The read `room.live_status?.fall_detected` as performed by the alert
effect (src/src/App.jsx line 1113; first revision line 370): optional
chaining followed by a plain truthiness test. -/
def readFallDetected (r : Room) : Bool :=
  truthy (match r.live_status with
    | some ls => ls.fall_detected
    | none => .undefined)

/-- The read `room.motion?.val > 0` (src/src/App.jsx line 1118): a missing
record or key compares as `undefined > 0`, which is false in JavaScript. -/
def motionPositive (r : Room) : Bool :=
  match r.motion with
  | some m =>
    match m.val with
    | some v => v > 0
    | none => false
  | none => false

/-- The global sensor status test of the alert aggregation effect
(src/src/App.jsx line 1125): the status string is alarming exactly when it
is `===` to one of the two enumerated constants. -/
def sensorStatusAlarming (s : String) : Bool :=
  s == "Fall Down" || s == "fall_detected"

/-- The monitor card's sensor status test (src/src/App.jsx line 1360),
which enumerates only `"Fall Down"`. -/
def sensorCardAlarming (s : String) : Bool :=
  s == "Fall Down"

/-- Definition following the spec's words (spec section 8, property 2),
kept for comparison with the source's checks: alarming by exclusion,
i.e. any non-empty status whose lower-case form is neither `"normal"`
nor `"online"`. -/
def isAlarmingSpec (s : String) : Bool :=
  !(s == "" || jsToLower s == "normal" || jsToLower s == "online")

/-- A room contributes to the emergency flag when either fall indicator
fires (methods 1 and 2 of the aggregation effect, src/src/App.jsx
lines 1111-1122). -/
def roomFallSignal (r : Room) : Bool :=
  readFallDetected r || motionPositive r

/-- The aggregate `emergency` computed by the alert effect
(src/src/App.jsx lines 1106-1127): any room's fall indicator, OR the
global sensor status being one of the enumerated alarm strings. -/
def computeEmergency (ward : Ward) (sensor : SensorData) : Bool :=
  ward.any (fun p => roomFallSignal p.2) ||
    (match sensor.status with
     | some s => sensorStatusAlarming s
     | none => false)

/-- The number of rooms whose fall indicator is set.  The source keeps no
such count; this definition names the spec's "unacknowledged count" for a
snapshot (no room carries an acknowledgement field in the code, so every
fallen room is unacknowledged). -/
def fallRoomCount (ward : Ward) : Nat :=
  (ward.filter (fun p => roomFallSignal p.2)).length

/-! ## Alert aggregation effect

The effect at src/src/App.jsx lines 1106-1157 (first revision
lines 333-364): recompute `emergency`; if it differs from the stored
`activeAlert`, store it, and when the new value is `true` also clear
`alarmAcknowledged`, vibrate and raise a system notification. -/

/-- The aggregate alert state held in React state. -/
structure AggState where
  activeAlert : Bool
  alarmAcknowledged : Bool
deriving DecidableEq, Repr

/-- Platform capabilities guarding the side effects
(`navigator.vibrate` present; notification permission granted). -/
structure PlatformEnv where
  canVibrate : Bool
  notifGranted : Bool
deriving DecidableEq, Repr

/-- A raised system notification; only the fields the claims speak about
are kept (the fixed de-duplication `tag` and the representative room). -/
structure NotificationMsg where
  tag : String
  room : Option String
deriving DecidableEq, Repr

/-- The side effects recorded during one run of the alert effect:
whether the vibration pattern fired, the notification raised (if any),
and whether `setAlarmAcknowledged(false)` was called. -/
structure AlertEffects where
  vibrated : Bool
  notification : Option NotificationMsg
  ackCleared : Bool
deriving DecidableEq, Repr

/-- No side effects. -/
def noEffects : AlertEffects := ⟨false, none, false⟩

/-- The `alertRoom` computed by the aggregation effect's `forEach`:
the last room (in iteration order) whose fall indicator fires. -/
def findAlertRoom (ward : Ward) : Option String :=
  ward.foldl (fun acc p => if roomFallSignal p.2 then some p.1 else acc) none

/-- One run of the alert aggregation effect (src/src/App.jsx
lines 1106-1157) on a telemetry snapshot: the body of the
`useEffect` with the `setState` calls made explicit. -/
def stepAlert (env : PlatformEnv) (st : AggState) (ward : Ward)
    (sensor : SensorData) : AggState × AlertEffects :=
  let emergency := computeEmergency ward sensor
  if emergency != st.activeAlert then
    if emergency then
      ({ activeAlert := emergency, alarmAcknowledged := false },
       { vibrated := env.canVibrate,
         notification :=
           if env.notifGranted then
             some { tag := "fall-alert", room := findAlertRoom ward }
           else none,
         ackCleared := true })
    else ({ st with activeAlert := emergency }, noEffects)
  else (st, noEffects)

/-- Running the alert effect over a sequence of telemetry snapshots,
collecting for each step whether the acknowledged flag was cleared. -/
def runAlert (env : PlatformEnv) : AggState → List (Ward × SensorData) →
    AggState × List Bool
  | st, [] => (st, [])
  | st, (w, sd) :: rest =>
    let out := stepAlert env st w sd
    let next := runAlert env out.1 rest
    (next.1, out.2.ackCleared :: next.2)

/-! ## Alarm control effect -/

/-- What the alarm control effect tells the alarm player to do. -/
inductive AlarmAction where
  | play : AlarmAction
  | stop : AlarmAction
deriving DecidableEq, Repr

/-- The Alarm Control Effect (src/src/App.jsx lines 1160-1166; first
revision lines 367-373): play iff `activeAlert && !isMuted &&
!alarmAcknowledged`, otherwise stop. -/
def alarmControlEffect (activeAlert isMuted alarmAcknowledged : Bool) :
    AlarmAction :=
  if activeAlert && !isMuted && !alarmAcknowledged then .play else .stop

/-! ## Concrete telemetry snapshots used by the claims -/

/-- A room whose legacy flag reports a fall. -/
def fallenRoom : Room := { live_status := some { fall_detected := .bool true }, motion := none }

/-- A quiet room. -/
def calmRoom : Room := { live_status := some { fall_detected := .bool false }, motion := none }

/-- Sensor snapshot without a status field. -/
def sensorNone : SensorData := { status := none }

/-- Ward snapshot with zero fallen rooms. -/
def ward0 : Ward := [("room_301", calmRoom), ("room_302", calmRoom)]

/-- Ward snapshot with one fallen room. -/
def ward1 : Ward := [("room_301", fallenRoom), ("room_302", calmRoom)]

/-- Ward snapshot with two fallen rooms. -/
def ward2 : Ward := [("room_301", fallenRoom), ("room_302", fallenRoom)]

/-- Platform environment with no side-effect capabilities. -/
def envQuiet : PlatformEnv := { canVibrate := false, notifGranted := false }

/-! ## Claim C2 -/

/-- Claim C2, counterexample.  The claim says the fall classification is
by exclusion, so that `isAlarming "fall" = true`.  The program's sensor
status check (src/src/App.jsx line 1125) is an enumerated exact-match
list, and classifies the status `"fall"` as NOT alarming, while the
spec-worded exclusion rule classifies it as alarming. -/
theorem c2_counterexample :
    sensorStatusAlarming "fall" = false ∧ isAlarmingSpec "fall" = true := by
  decide

/-- Claim C2, amended: the program classifies a sensor status string as
alarming by an enumerated case-sensitive list, not by exclusion: the
aggregation effect alarms exactly on `"Fall Down"` and `"fall_detected"`,
and the monitor card alarms only on `"Fall Down"`.  In particular
`"Normal"`, `""`, `"fall"`, `"FALL DOWN"`, `"ONLINE"` and `"Emergency"`
are all non-alarming. -/
theorem c2_amended :
    sensorStatusAlarming "Fall Down" = true ∧
    sensorStatusAlarming "fall_detected" = true ∧
    sensorStatusAlarming "Normal" = false ∧
    sensorStatusAlarming "" = false ∧
    sensorStatusAlarming "fall" = false ∧
    sensorStatusAlarming "FALL DOWN" = false ∧
    sensorStatusAlarming "ONLINE" = false ∧
    sensorStatusAlarming "Emergency" = false ∧
    sensorCardAlarming "Fall Down" = true ∧
    sensorCardAlarming "fall_detected" = false := by
  decide

/-! ## Claim C3 -/

/-- The string form `String(v)` JavaScript would produce, used only to
state the spec's tolerant boolean parse. -/
def jsToString : JsVal → String
  | .undefined => "undefined"
  | .null => "null"
  | .bool b => if b then "true" else "false"
  | .num n => toString n
  | .str s => s

/-- Definition following the spec's words (spec section 4.1, step 1),
kept for comparison with the source's read: case-insensitive string form
`"true"` maps to true, `"false"` to false, anything else follows
JavaScript truthiness. -/
def coerceBoolSpec (v : JsVal) : Bool :=
  if jsToLower (jsToString v) == "true" then true
  else if jsToLower (jsToString v) == "false" then false
  else truthy v

/-- Claim C3, counterexample.  The claim says the legacy flat fields are
read through a tolerant boolean parse with `coerceBool "FALSE" = false`.
The program reads `live_status?.fall_detected` with a plain truthiness
test (src/src/App.jsx line 1113), so the string `"FALSE"` counts as a
detected fall, while the spec-worded parse yields false. -/
theorem c3_counterexample :
    readFallDetected { live_status := some { fall_detected := .str "FALSE" }, motion := none } = true ∧
    coerceBoolSpec (.str "FALSE") = false := by
  decide

/-- Claim C3, amended: `liveStatus.fall_detected` is read with plain
JavaScript truthiness and no case-insensitive `"true"`/`"false"` parsing
(and `liveStatus.acknowledged` is never read at all; acknowledgement is
purely local state): `"true"` coerces to true, `"FALSE"` also coerces to
true, `1` to true, an absent value to false and `""` to false. -/
theorem c3_amended :
    readFallDetected { live_status := some { fall_detected := .str "true" }, motion := none } = true ∧
    readFallDetected { live_status := some { fall_detected := .str "FALSE" }, motion := none } = true ∧
    readFallDetected { live_status := some { fall_detected := .num 1 }, motion := none } = true ∧
    readFallDetected { live_status := some { fall_detected := .undefined }, motion := none } = false ∧
    readFallDetected { live_status := none, motion := none } = false ∧
    readFallDetected { live_status := some { fall_detected := .str "" }, motion := none } = false := by
  decide

/-! ## Claim C4 -/

/-- Claim C4: the alarm driving condition.  The player is told to play
exactly when the alert is active AND not muted AND not acknowledged; the
full truth table of the effect matches the claim, including
`(true,false,false) → play`, `(true,true,false) → stop`,
`(true,false,true) → stop` and `(false,*,*) → stop`. -/
theorem c4_alarm_driving_condition :
    (∀ a m k : Bool,
      (alarmControlEffect a m k == AlarmAction.play) = (a && !m && !k)) ∧
    alarmControlEffect true false false = AlarmAction.play ∧
    alarmControlEffect true true false = AlarmAction.stop ∧
    alarmControlEffect true false true = AlarmAction.stop ∧
    (∀ m k : Bool, alarmControlEffect false m k = AlarmAction.stop) := by
  decide

/-! ## Claim C1 -/

/-- Claim C1, counterexample.  The claim says the re-arm decision compares
unacknowledged-incident counts, clearing the acknowledged flag whenever
the count strictly increases — so at a 1 -> 2 transition the flag must be
cleared.  The program compares only the boolean `emergency` against the
stored `activeAlert` (src/src/App.jsx line 1130), so with one room already
fallen and acknowledged, a second room falling (count 1 -> 2) clears
nothing: the flag stays `true` and no clear event fires. -/
theorem c1_counterexample :
    fallRoomCount ward1 = 1 ∧ fallRoomCount ward2 = 2 ∧
    (stepAlert envQuiet { activeAlert := true, alarmAcknowledged := true }
      ward2 sensorNone).1.alarmAcknowledged = true ∧
    (stepAlert envQuiet { activeAlert := true, alarmAcknowledged := true }
      ward2 sensorNone).2.ackCleared = false := by
  decide

/-- Claim C1, amended: the re-arm decision is a boolean edge trigger, not
a count comparison — the acknowledged flag is cleared exactly when the
aggregate fall flag transitions from false to true.  In general one step
clears the flag iff the new `emergency` is true and the stored
`activeAlert` was false, and on the snapshot sequence with fall counts
`[0, 1, 1, 2, 1]` the flag is cleared exactly at the `0 -> 1` transition
(and NOT at `1 -> 2`). -/
theorem c1_amended :
    (∀ (env : PlatformEnv) (st : AggState) (w : Ward) (sd : SensorData),
      (stepAlert env st w sd).2.ackCleared =
        (computeEmergency w sd && !st.activeAlert)) ∧
    fallRoomCount ward0 = 0 ∧ fallRoomCount ward1 = 1 ∧ fallRoomCount ward2 = 2 ∧
    (runAlert envQuiet { activeAlert := false, alarmAcknowledged := false }
      [(ward0, sensorNone), (ward1, sensorNone), (ward1, sensorNone),
       (ward2, sensorNone), (ward1, sensorNone)]).2 =
      [false, true, false, false, false] := by
  refine ⟨?_, by decide, by decide, by decide, by decide⟩
  intro env st w sd
  cases he : computeEmergency w sd <;> cases ha : st.activeAlert <;>
    simp [stepAlert, he, ha, noEffects]

/-! ## Claim C7 -/

/-- Claim C7: the vibration pattern and the system notification fire only
on the rising edge of the aggregate fall flag — one run of the alert
effect vibrates iff the platform can vibrate, the new `emergency` is true
and the stored `activeAlert` was false; the notification is raised under
the same edge condition (given permission) and always carries the fixed
de-duplication tag `"fall-alert"`.  In particular nothing fires while the
flag is already true or stays false. -/
theorem c7_rising_edge_effects :
    ∀ (env : PlatformEnv) (st : AggState) (w : Ward) (sd : SensorData),
      (stepAlert env st w sd).2.vibrated =
        (env.canVibrate && computeEmergency w sd && !st.activeAlert) ∧
      (stepAlert env st w sd).2.notification =
        (if env.notifGranted && computeEmergency w sd && !st.activeAlert then
          some { tag := "fall-alert", room := findAlertRoom w }
        else none) := by
  intro env st w sd
  cases he : computeEmergency w sd <;> cases ha : st.activeAlert <;>
    simp [stepAlert, he, ha, noEffects]

/-! ## The AlarmSound audio subsystem -/

/-- The lifecycle state of a Web Audio context. -/
inductive AudioCtxState where
  | running : AudioCtxState
  | suspended : AudioCtxState
  | closed : AudioCtxState
deriving DecidableEq, Repr

/-- The fallback `<audio>` element state the class manipulates
(`pause()`, `currentTime`, `volume`). -/
structure FallbackAudio where
  paused : Bool
  currentTime : Int
  volume : Int
deriving DecidableEq, Repr

/-- The mutable state of the `AlarmSound` class (src/src/App.jsx
lines 47-232 of the first revision, lines 777-962 of the current one):
`audioCtx`, `intervalId`, `isPlaying`, `isUnlocked`, `alarmBuffer`
(kept as a flag: whether the buffer has been synthesized) and
`fallbackAudio`. -/
structure AlarmSound where
  audioCtx : Option AudioCtxState
  intervalId : Option Nat
  isPlaying : Bool
  isUnlocked : Bool
  alarmBuffer : Bool
  fallbackAudio : Option FallbackAudio
deriving DecidableEq, Repr

/-- `AlarmSound.play()` (src/src/App.jsx lines 915-923): no-op while
already playing; otherwise mark playing and start the Web Audio path
(resume a suspended context, schedule the 2000 ms retrigger interval —
`freshId` is the handle `setInterval` returns) when context, buffer and
unlock are all available, else rewind and start the fallback clip. -/
def AlarmSound.play (freshId : Nat) (s : AlarmSound) : AlarmSound :=
  if s.isPlaying then s
  else
    let s1 := { s with isPlaying := true }
    if s1.audioCtx.isSome && s1.alarmBuffer && s1.isUnlocked then
      { s1 with
        audioCtx := s1.audioCtx.map (fun c =>
          if c == .suspended then .running else c),
        intervalId := some freshId }
    else
      { s1 with
        fallbackAudio := s1.fallbackAudio.map (fun f =>
          { f with currentTime := 0, volume := 1, paused := false }) }

/-- `AlarmSound.stop()` (src/src/App.jsx lines 946-956): clear the
playing flag, cancel the retrigger interval if set, and pause and rewind
the fallback clip if present. -/
def AlarmSound.stop (s : AlarmSound) : AlarmSound :=
  { s with
    isPlaying := false,
    intervalId := none,
    fallbackAudio := s.fallbackAudio.map (fun f =>
      { f with paused := true, currentTime := 0 }) }

/-- `AlarmSound.dispose()` (src/src/App.jsx lines 958-961): stop, then
close the audio context if one was created (`close()` rejections are
swallowed). -/
def AlarmSound.dispose (s : AlarmSound) : AlarmSound :=
  let s1 := AlarmSound.stop s
  { s1 with audioCtx := s1.audioCtx.map (fun _ => .closed) }

/-- After any `play()` call the playing flag is set. -/
theorem AlarmSound.isPlaying_play (i : Nat) (s : AlarmSound) :
    (AlarmSound.play i s).isPlaying = true := by
  by_cases h : s.isPlaying <;> simp [AlarmSound.play, h]
  split <;> simp

/-- `play()` is a no-op on a state already marked playing. -/
theorem AlarmSound.play_of_isPlaying (i : Nat) (s : AlarmSound)
    (h : s.isPlaying = true) : AlarmSound.play i s = s := by
  simp [AlarmSound.play, h]

/-! ## Claim C8 -/

/-- Claim C8: `play()` is idempotent (a second call while playing is a
no-op); `stop()` is idempotent, always leaves the retrigger interval
cancelled and the fallback clip paused and rewound; `dispose()` is
idempotent, leaves playback stopped, the interval cancelled, and any
audio context closed (resources released). -/
theorem c8_play_stop_dispose :
    ∀ (s : AlarmSound) (i j : Nat),
      AlarmSound.play j (AlarmSound.play i s) = AlarmSound.play i s ∧
      AlarmSound.stop (AlarmSound.stop s) = AlarmSound.stop s ∧
      (AlarmSound.stop s).intervalId = none ∧
      (AlarmSound.stop s).fallbackAudio =
        s.fallbackAudio.map (fun f => { f with paused := true, currentTime := 0 }) ∧
      AlarmSound.dispose (AlarmSound.dispose s) = AlarmSound.dispose s ∧
      (AlarmSound.dispose s).isPlaying = false ∧
      (AlarmSound.dispose s).intervalId = none ∧
      (AlarmSound.dispose s).audioCtx = s.audioCtx.map (fun _ => .closed) := by
  intro s i j
  obtain ⟨ctx, iv, ip, iu, ab, fb⟩ := s
  refine ⟨AlarmSound.play_of_isPlaying j _ (AlarmSound.isPlaying_play i _),
    ?_, rfl, ?_, ?_, rfl, rfl, ?_⟩ <;>
    cases fb <;> cases ctx <;> rfl

/-! ## Claim C5 -/

/-- The ACKNOWLEDGE button's onClick handler (src/src/App.jsx line 1344;
first revision line 545): it runs exactly `setAlarmAcknowledged(true)`
and `alarmRef.current?.stop()`.  The handler is modelled with the same
observable surface as the other actions: besides the new React state and
alarm player state it returns the list of backend writes and the list of
log entries it performs — both empty, because the handler contains no
`update(...)` call and the app has no event logger. -/
def acknowledgeClick (st : AggState) (a : AlarmSound) :
    AggState × AlarmSound × List (String × String) × List String :=
  ({ st with alarmAcknowledged := true }, AlarmSound.stop a, [], [])

/-- Claim C5, counterexample.  The claim says acknowledging an Emergency
room writes `acknowledged=true` to that room's live status in the backend
and emits an ACKNOWLEDGED log entry.  Invoked in the Emergency state
(alert active, not acknowledged), the handler performs no backend write
and no log entry at all. -/
theorem c5_counterexample :
    (acknowledgeClick { activeAlert := true, alarmAcknowledged := false }
      { audioCtx := some .running, intervalId := some 7, isPlaying := true,
        isUnlocked := true, alarmBuffer := true,
        fallbackAudio := some { paused := true, currentTime := 0, volume := 1 } }).2.2.1
      = [] ∧
    (acknowledgeClick { activeAlert := true, alarmAcknowledged := false }
      { audioCtx := some .running, intervalId := some 7, isPlaying := true,
        isUnlocked := true, alarmBuffer := true,
        fallbackAudio := some { paused := true, currentTime := 0, volume := 1 } }).2.2.2
      = [] := by
  decide

/-- Claim C5, amended: the acknowledge action only flips the local
globally-acknowledged flag to true and stops the alarm player; it writes
nothing to the backend and emits no log entry (there is no per-room
acknowledgement and no event logger), so re-acknowledging is trivially a
no-op at the data layer. -/
theorem c5_amended :
    ∀ (st : AggState) (a : AlarmSound),
      (acknowledgeClick st a).1.alarmAcknowledged = true ∧
      (acknowledgeClick st a).1.activeAlert = st.activeAlert ∧
      (acknowledgeClick st a).2.1 = AlarmSound.stop a ∧
      (acknowledgeClick st a).2.1.isPlaying = false ∧
      (acknowledgeClick st a).2.1.intervalId = none ∧
      (acknowledgeClick st a).2.2.1 = [] ∧
      (acknowledgeClick st a).2.2.2 = [] := by
  intro st a
  exact ⟨rfl, rfl, rfl, rfl, rfl, rfl, rfl⟩

/-! ## Claim C9: the audio unlock attempt -/

/-- The environment facts that decide how one `_unlock()` attempt goes:
whether `new AudioContext()` succeeds and in which state the fresh
context starts, whether `resume()` succeeds, and whether the fallback
clip warm-up `play()` succeeds. -/
structure UnlockEnv where
  ctxCreateOk : Bool
  newCtxState : AudioCtxState
  resumeOk : Bool
  fallbackPlayOk : Bool
deriving DecidableEq, Repr

/-- The context state after the create-if-absent and resume-if-suspended
steps at the top of `_unlock()` (src/src/App.jsx lines 795-800). -/
def effectiveCtx (env : UnlockEnv) (s : AlarmSound) : AudioCtxState :=
  let c0 := s.audioCtx.getD env.newCtxState
  if c0 == .suspended && env.resumeOk then .running else c0

/-- The body of `AlarmSound._unlock()` (src/src/App.jsx lines 793-833)
up to but excluding the outer catch: `new AudioContext()` may throw
(`.error`), a still-suspended or closed context aborts early leaving the
state locked, and otherwise the silent tone plays, the alarm buffer is
synthesized, the fallback clip is warmed up (its own failures leave the
volume at the 0 it was just set to) and `isUnlocked` becomes true. -/
def AlarmSound.unlockCore (env : UnlockEnv) (s : AlarmSound) :
    Except Unit AlarmSound :=
  if s.audioCtx.isNone && !env.ctxCreateOk then .error ()
  else
    let c1 := effectiveCtx env s
    let s1 := { s with audioCtx := some c1 }
    if c1 == .suspended || c1 == .closed then .ok s1
    else
      let s2 := { s1 with alarmBuffer := true }
      let s3 := { s2 with fallbackAudio := s2.fallbackAudio.map (fun (f : FallbackAudio) =>
        if env.fallbackPlayOk then
          ({ f with paused := true, currentTime := 0, volume := 1 } : FallbackAudio)
        else ({ f with volume := 0 } : FallbackAudio)) }
      .ok { s3 with isUnlocked := true }

/-- `AlarmSound._unlock()` as observed by its callers: the whole body is
wrapped in try/catch whose handler only logs, so a throw leaves the state
as it was and nothing propagates. -/
def AlarmSound.unlockStep (env : UnlockEnv) (s : AlarmSound) : AlarmSound :=
  match AlarmSound.unlockCore env s with
  | .ok t => t
  | .error _ => s

/-- Whether one `_unlock()` attempt reaches the `isUnlocked = true` line:
a context is available (already present or creatable) and ends up
running after the resume step. -/
def unlockOk (env : UnlockEnv) (s : AlarmSound) : Bool :=
  (s.audioCtx.isSome || env.ctxCreateOk) && (effectiveCtx env s == .running)

/-- The once-only unlock listener wiring (src/src/App.jsx
lines 1198-1227): the handler is registered with `once: true` on click,
keydown and touchend and additionally removes all three registrations
itself, so the first user interaction of any kind runs `_unlock()` and
deactivates the listeners regardless of the attempt's outcome. -/
structure UnlockListeners where
  active : Bool
  alarm : AlarmSound
deriving DecidableEq, Repr

/-- One user interaction under the once-only listener wiring: while the
listeners are active it runs the unlock attempt and removes them;
afterwards interactions do nothing. -/
def interactOnce (env : UnlockEnv) (st : UnlockListeners) : UnlockListeners :=
  if st.active then { active := false, alarm := AlarmSound.unlockStep env st.alarm }
  else st

/-- The `AlarmSound` state right after the constructor and `init()`:
no context, nothing playing, locked, no buffer, and the generated
fallback clip present (paused at the start, volume 1). -/
def alarmAfterInit : AlarmSound :=
  { audioCtx := none, intervalId := none, isPlaying := false,
    isUnlocked := false, alarmBuffer := false,
    fallbackAudio := some { paused := true, currentTime := 0, volume := 1 } }

/-- An environment in which the unlock attempt fails:
`new AudioContext()` throws. -/
def failEnv : UnlockEnv :=
  { ctxCreateOk := false, newCtxState := .running, resumeOk := false,
    fallbackPlayOk := true }

/-- An environment in which the unlock attempt succeeds. -/
def okEnv : UnlockEnv :=
  { ctxCreateOk := true, newCtxState := .running, resumeOk := true,
    fallbackPlayOk := true }

/-- Claim C9, counterexample.  The claim says a failed unlock is retried
on every subsequent user interaction until it succeeds.  In the
environment `okEnv` a direct attempt from the freshly initialized state
succeeds — yet if the first interaction happened in the failing
environment, a second interaction in `okEnv` leaves the system locked,
because the once-only listeners were already removed: no retry occurs. -/
theorem c9_counterexample :
    (AlarmSound.unlockStep okEnv alarmAfterInit).isUnlocked = true ∧
    (interactOnce okEnv (interactOnce failEnv
      { active := true, alarm := alarmAfterInit })).alarm.isUnlocked = false := by
  decide

/-- Claim C9, amended: a failed unlock attempt leaves the system locked
and throws nothing (after one attempt `isUnlocked` holds exactly when it
already held or the attempt succeeded, and a body that throws is caught,
leaving the state unchanged) — but the attempt is wired to the FIRST user
interaction only: the once-only listeners are deactivated by that
interaction whatever its outcome, and later interactions are no-ops, so a
failure is not retried until the component is remounted. -/
theorem c9_amended :
    ∀ (env : UnlockEnv) (s a : AlarmSound),
      (AlarmSound.unlockStep env s).isUnlocked = (s.isUnlocked || unlockOk env s) ∧
      (match AlarmSound.unlockCore env s with
       | .ok t => AlarmSound.unlockStep env s = t
       | .error _ => AlarmSound.unlockStep env s = s) ∧
      (interactOnce env { active := true, alarm := a }).active = false ∧
      interactOnce env { active := false, alarm := a } =
        { active := false, alarm := a } := by
  intro env s a
  refine ⟨?_, ?_, rfl, rfl⟩
  · obtain ⟨ctx, iv, ip, iu, ab, fb⟩ := s
    cases ctx with
    | none =>
      cases hc : env.ctxCreateOk <;>
        cases hn : env.newCtxState <;>
        cases hr : env.resumeOk <;>
        simp [AlarmSound.unlockStep, AlarmSound.unlockCore, unlockOk,
          effectiveCtx, hc, hn, hr]
    | some c =>
      cases c <;>
        cases hr : env.resumeOk <;>
        simp [AlarmSound.unlockStep, AlarmSound.unlockCore, unlockOk,
          effectiveCtx, hr]
  · cases h : AlarmSound.unlockCore env s <;>
      simp [AlarmSound.unlockStep, h]

/-! ## Claim C6 -/

/-- The device online check
`(Date.now() - (device.status?.last_seen || 0)) < 60000`
(src/unnamed/part_000 line 701; src/src/App.jsx lines 1564, 1617
and 1709): a missing `last_seen` defaults to 0 through `|| 0`. -/
def isOnline (now : Int) (last_seen : Option Int) : Bool :=
  now - last_seen.getD 0 < 60000

/-- Claim C6: a device is classified online iff the current time minus
its `last_seen` timestamp is strictly below 60000 ms, and a device with
no `last_seen` timestamp is classified offline (for any clock value at
least 60000 ms past the epoch — the `|| 0` default makes an absent
timestamp behave as the epoch itself). -/
theorem c6_device_online_window :
    ∀ (now t : Int),
      (isOnline now (some t) = true ↔ now - t < 60000) ∧
      (60000 ≤ now → isOnline now none = false) := by
  intro now t
  constructor
  · simp [isOnline]
  · intro h
    simp only [isOnline, Option.getD_none, decide_eq_false_iff_not, not_lt]
    omega

/-- Claim C6, witness: at a realistic clock value a device last seen one
second ago is online, one seen two minutes ago is offline, and one with
no timestamp at all is offline. -/
theorem c6_witness :
    isOnline 1700000000000 (some 1699999999000) = true ∧
    isOnline 1700000000000 (some 1699999880000) = false ∧
    isOnline 1700000000000 none = false := by
  refine ⟨(c6_device_online_window 1700000000000 1699999999000).1.mpr (by norm_num),
    ?_, (c6_device_online_window 1700000000000 0).2 (by norm_num)⟩
  decide

/-! ## Claim C10 -/

/-- Room id normalization inside `handleSaveConfig` (src/src/App.jsx
lines 981-983): keep the trimmed id when its lower-case form already
starts with `room_`, otherwise prepend `room_` to the trimmed id. -/
def normalizeRoomId (roomId : String) : String :=
  if jsStartsWith (jsToLower (jsTrim roomId)) "room_" then jsTrim roomId
  else "room_" ++ jsTrim roomId

/-- `handleSaveConfig(deviceId, roomId, patientName)` (src/src/App.jsx
lines 977-1002; src/unnamed/part_000 lines 250-275) as a pure function
from its arguments to the backend update it issues: `none` when the
falsy-roomId guard aborts before any write, otherwise the single
multi-path update map, as path/value pairs in construction order. -/
def handleSaveConfig (deviceId roomId patientName : String) :
    Option (List (String × String)) :=
  if roomId == "" then none
  else
    let normalizedRoom := normalizeRoomId roomId
    some
      [("hospital_system/devices/" ++ deviceId ++ "/config/room_id", normalizedRoom),
       ("hospital_system/devices/" ++ deviceId ++ "/config/patient_name", patientName),
       ("hospital_system/devices/" ++ deviceId ++ "/config/assigned_room", normalizedRoom),
       ("hospital_system/wards/ward_A/" ++ normalizedRoom ++ "/patient_info/name", patientName)]

/-- Claim C10: with an empty room id `handleSaveConfig` performs no
backend write; otherwise it issues one update whose paths are the
device's `config/room_id`, `config/patient_name` and
`config/assigned_room` plus the ward room's `patient_info/name`, whose
`room_id` and `assigned_room` values are both the normalized room id
(the trimmed id when its lower-case form already starts with `room_`,
else `room_` prepended to the trimmed id), and whose two patient-name
paths both receive `patientName`. -/
theorem c10_save_config :
    ∀ (deviceId roomId patientName : String),
      handleSaveConfig deviceId "" patientName = none ∧
      (roomId ≠ "" →
        ∃ ws, handleSaveConfig deviceId roomId patientName = some ws ∧
          ws.map Prod.fst =
            ["hospital_system/devices/" ++ deviceId ++ "/config/room_id",
             "hospital_system/devices/" ++ deviceId ++ "/config/patient_name",
             "hospital_system/devices/" ++ deviceId ++ "/config/assigned_room",
             "hospital_system/wards/ward_A/" ++ normalizeRoomId roomId ++ "/patient_info/name"] ∧
          ws.map Prod.snd =
            [normalizeRoomId roomId, patientName, normalizeRoomId roomId, patientName] ∧
          normalizeRoomId roomId =
            (if jsStartsWith (jsToLower (jsTrim roomId)) "room_" then jsTrim roomId
             else "room_" ++ jsTrim roomId)) := by
  intro deviceId roomId patientName
  refine ⟨rfl, fun h => ?_⟩
  refine ⟨[("hospital_system/devices/" ++ deviceId ++ "/config/room_id", normalizeRoomId roomId),
    ("hospital_system/devices/" ++ deviceId ++ "/config/patient_name", patientName),
    ("hospital_system/devices/" ++ deviceId ++ "/config/assigned_room", normalizeRoomId roomId),
    ("hospital_system/wards/ward_A/" ++ normalizeRoomId roomId ++ "/patient_info/name", patientName)],
    ?_, rfl, rfl, rfl⟩
  simp [handleSaveConfig, h]

/-- Claim C10, witness: saving device `ESP32_CAM_1` with room id
`" 301 "` and patient `Alice` issues the four writes, with both room
fields set to `room_301` (the id is trimmed and prefixed); saving with
room id `Room_301` keeps the id as typed (its lower-case form already
starts with `room_`); an empty room id aborts with no write. -/
theorem c10_witness :
    handleSaveConfig "ESP32_CAM_1" "" "Alice" = none ∧
    (∃ ws, handleSaveConfig "ESP32_CAM_1" " 301 " "Alice" = some ws ∧
      ws.map Prod.fst =
        ["hospital_system/devices/ESP32_CAM_1/config/room_id",
         "hospital_system/devices/ESP32_CAM_1/config/patient_name",
         "hospital_system/devices/ESP32_CAM_1/config/assigned_room",
         "hospital_system/wards/ward_A/room_301/patient_info/name"] ∧
      ws.map Prod.snd = ["room_301", "Alice", "room_301", "Alice"]) ∧
    normalizeRoomId "Room_301" = "Room_301" := by
  refine ⟨(c10_save_config "ESP32_CAM_1" " 301 " "Alice").1, ?_, by decide⟩
  obtain ⟨ws, hws, hfst, hsnd, -⟩ :=
    (c10_save_config "ESP32_CAM_1" " 301 " "Alice").2 (by decide)
  have hnorm : normalizeRoomId " 301 " = "room_301" := by decide
  refine ⟨ws, hws, ?_, ?_⟩
  · rw [hfst, hnorm]; decide
  · rw [hsnd, hnorm]
